import Mathlib

/-!
Shallow embedding of the "Madu" Sinhala AI assistant (a browser chat UI over
the Gemini API).  Pure data is translated directly; browser-held mutable state
(React `useState`, `localStorage`) is passed explicitly; remote calls are
abstracted by an environment record of oracles; `throw` / rejected promises
become `Except`.
-/

namespace AiBot

/-- Role of a chat message, from `MessageRole` in the types module. -/
inductive MessageRole where
  | user
  | model
  | system
deriving DecidableEq, Repr

/-- Search citation, from `SearchResult` in the types module: `{uri, title}`. -/
structure SearchResult where
  uri : String
  title : String
deriving DecidableEq, Repr

/-- Chat message record, from `Message` in the types module.  Optional fields
are `Option`s, mirroring the `?` fields of the TypeScript type. -/
structure Message where
  id : String
  role : MessageRole
  text : Option String := none
  imageUrl : Option String := none
  searchResults : Option (List SearchResult) := none
deriving DecidableEq, Repr

/-- Authenticated user, from `User` in the types module. -/
structure User where
  username : String
deriving DecidableEq, Repr

/-! ## Credential store and the Auth component

The Auth component keeps its credential map as JSON under the `users` key of
`localStorage` (`{username: {password}}`).  We model the store at the
post-`JSON.parse` level: an association list from username to password.
The `handleSignup` / `handleLogin` handlers return the outcome (in place of
calling `setError` / `onLogin`) together with the resulting store (in place
of `localStorage.setItem`). -/

/-- JavaScript `String.prototype.trim`: strip leading and trailing
whitespace (embedded over the character list so that it evaluates in the
kernel). -/
def jsTrim (s : String) : String :=
  String.mk (((s.data.dropWhile Char.isWhitespace).reverse.dropWhile Char.isWhitespace).reverse)

/-- JavaScript `String.prototype.startsWith` (embedded over the character
lists so that it evaluates in the kernel). -/
def jsStartsWith (s p : String) : Bool := List.isPrefixOf p.data s.data

/-- Credential store: the parsed `users` object, username to password. -/
abbrev Store := List (String × String)

/-- Auth failure outcomes of the Auth component, one per distinct
`setError` message. -/
inductive AuthError where
  | ValidationError
  | DuplicateUserError
  | InvalidCredentialsError
deriving DecidableEq, Repr

/-- Embedding of `handleSignup` (Auth component): reject empty-after-trim
fields, reject an existing username, otherwise store `{password}` under the
username and log the new user in. -/
def handleSignup (store : Store) (username password : String) :
    Except AuthError User × Store :=
  if jsTrim username = "" ∨ jsTrim password = "" then
    (Except.error AuthError.ValidationError, store)
  else
    match List.lookup username store with
    | some _ => (Except.error AuthError.DuplicateUserError, store)
    | none => (Except.ok { username }, store ++ [(username, password)])

/-- Embedding of `handleLogin` (Auth component): reject empty-after-trim
fields, then succeed exactly when the stored password for the username
strictly equals the submitted one.  The handler never writes the store, so
the store passes through unchanged in every branch. -/
def handleLogin (store : Store) (username password : String) :
    Except AuthError User × Store :=
  if jsTrim username = "" ∨ jsTrim password = "" then
    (Except.error AuthError.ValidationError, store)
  else
    match List.lookup username store with
    | some stored =>
        if stored = password then (Except.ok { username }, store)
        else (Except.error AuthError.InvalidCredentialsError, store)
    | none => (Except.error AuthError.InvalidCredentialsError, store)

/-! ## Assistant Client (the tool-call geminiService variant)

`getAssistantResponse` drives a chat session: one `sendMessage` with the user
text, an optional tool dispatch, and (on a tool turn) a second `sendMessage`
carrying the tool's payload.  The remote service and the wall clock are
abstracted by a `GeminiEnv` of oracles; a rejected promise is `Except.error`.
`getAssistantResponse` itself has no try/catch, so remote faults (and the
explicit unknown-tool `throw`) surface as `Except.error` to its caller. -/

/-- Function call carried by a model response: its `name` and the two
argument slots the code reads (`args.query`, `args.prompt`). -/
structure FunctionCall where
  name : String
  query : Option String := none
  prompt : Option String := none
deriving DecidableEq, Repr

/-- First part of the first candidate of a chat response: the two fields the
code projects out (`...parts?.[0]?.functionCall` and `...parts?.[0]?.text`),
each possibly absent. -/
structure ModelResp where
  functionCall : Option FunctionCall := none
  text : Option String := none
deriving DecidableEq, Repr

/-- Grounding chunk of a search response: the optional `web: {uri, title}`
member is all the code reads. -/
structure GroundingChunk where
  web : Option SearchResult := none
deriving DecidableEq, Repr

/-- Environment of remote oracles for one conversational turn: outcomes of
the two `chat.sendMessage` calls, of the grounded-search and
image-generation endpoints, and the formatted local time. -/
structure GeminiEnv where
  /-- Outcome of the first `chat.sendMessage({message})`. -/
  send1 : Except String ModelResp
  /-- Outcome of the second `chat.sendMessage` (tool response round trip),
  projected to `...parts?.[0]?.text`. -/
  send2 : Except String (Option String)
  /-- Outcome of `ai.models.generateContent` inside `performWebSearch`:
  `response.text` and the grounding chunks. -/
  searchApi : Option String → Except String (Option String × List GroundingChunk)
  /-- Outcome of `ai.models.generateImages` inside `performImageGeneration`:
  the `imageBytes` of each generated image. -/
  imageApi : Option String → Except String (List String)
  /-- Value of `new Date().toLocaleString('si-LK')`. -/
  nowSi : String

/-- Payload handed back to the model as the tool's `functionResponse`.  One
constructor per shape the code can build: `performWebSearch` always yields a
`{summary, results}` object, `performImageGeneration` yields `{imageUrl}` or
`{error}`, and the time branch yields `{time}`.  The TypeScript `'results' in
payload` / `'imageUrl' in payload` membership tests become matches on the
constructor. -/
inductive FnPayload where
  | searchP (summary : Option String) (results : List SearchResult)
  | imageOk (imageUrl : String)
  | imageErr (msg : String)
  | timeP (time : String)
deriving DecidableEq, Repr

/-- Field access `'results' in payload ... payload.results`. -/
def FnPayload.results? : FnPayload → Option (List SearchResult)
  | .searchP _ rs => some rs
  | _ => none

/-- Field access `'imageUrl' in payload ... payload.imageUrl`. -/
def FnPayload.imageUrl? : FnPayload → Option String
  | .imageOk u => some u
  | _ => none

/-- Embedding of `performWebSearch`: summarize via the grounded-search
endpoint and keep the `{uri, title}` of every chunk that has a `web` member
(its internal catch degrades to a Sinhala apology summary with no
results). -/
def performWebSearch (env : GeminiEnv) (query : Option String) : FnPayload :=
  match env.searchApi query with
  | Except.error _ =>
      FnPayload.searchP (some "මට කණගාටුයි, සෙවීම සිදු කිරීමට නොහැකි විය.") []
  | Except.ok (text, rawChunks) =>
      FnPayload.searchP text (rawChunks.filterMap (fun chunk => chunk.web))

/-- Embedding of `performImageGeneration`: wrap the first generated image as
a `data:` URI; an empty image list or a thrown fault degrades to an error
string inside the payload (never a thrown fault). -/
def performImageGeneration (env : GeminiEnv) (prompt : Option String) : FnPayload :=
  match env.imageApi prompt with
  | Except.error _ => FnPayload.imageErr "රූපය ජනනය කිරීමේදී දෝෂයක් ඇතිවිය."
  | Except.ok imgs =>
      match imgs with
      | b :: _ => FnPayload.imageOk ("data:image/jpeg;base64," ++ b)
      | [] => FnPayload.imageErr "රූපයක් ජනනය කිරීමට නොහැකි විය."

/-- Faults `getAssistantResponse` can let escape: a rejected remote call, or
the explicit `throw new Error` on an unknown tool name. -/
inductive GeminiFault where
  | remote (msg : String)
  | unknownTool (name : String)
deriving DecidableEq, Repr

/-- Return shape of `getAssistantResponse` (`AssistantResponse` in the
source). -/
structure AssistantResponse where
  text : Option String := none
  imageUrl : Option String := none
  searchResults : Option (List SearchResult) := none
deriving DecidableEq, Repr

/-- Wire item of the conversation history: `{role, parts: [{text}]}`. -/
structure HistoryPart where
  text : String
deriving DecidableEq, Repr

/-- Wire history entry sent as chat context. -/
structure HistoryItem where
  role : MessageRole
  parts : List HistoryPart
deriving DecidableEq, Repr

/-- Second half of a tool turn: resubmit the payload with the second
`sendMessage`, take its text (`?? ''`) as the final answer, then attach
`searchResults` only for `searchTheWeb` payloads carrying `results` and
`imageUrl` only for `generateImage` payloads carrying `imageUrl`. -/
def finishToolTurn (env : GeminiEnv) (fc : FunctionCall) (payload : FnPayload) :
    Except GeminiFault AssistantResponse :=
  match env.send2 with
  | Except.error e => Except.error (GeminiFault.remote e)
  | Except.ok finalText =>
      Except.ok
        { text := some (finalText.getD "")
          searchResults :=
            if fc.name = "searchTheWeb" then payload.results? else none
          imageUrl :=
            if fc.name = "generateImage" then payload.imageUrl? else none }

/-- Embedding of `getAssistantResponse`: one chat turn with tool dispatch.
The `message` and `history` arguments configure the chat session, whose
responses the environment `env` abstracts. -/
def getAssistantResponse (env : GeminiEnv) (message : String)
    (history : List HistoryItem) : Except GeminiFault AssistantResponse :=
  match env.send1 with
  | Except.error e => Except.error (GeminiFault.remote e)
  | Except.ok resp =>
      match resp.functionCall with
      | some fc =>
          if fc.name = "searchTheWeb" then
            finishToolTurn env fc (performWebSearch env fc.query)
          else if fc.name = "generateImage" then
            finishToolTurn env fc (performImageGeneration env fc.prompt)
          else if fc.name = "getCurrentTime" then
            finishToolTurn env fc (FnPayload.timeP env.nowSi)
          else
            Except.error (GeminiFault.unknownTool fc.name)
      | none =>
          Except.ok
            { text := some
                (match resp.text with
                 | some t => if t = "" then "මට කණගාටුයි, මට එය තේරුම් ගැනීමට නොහැකි විය." else t
                 | none => "මට කණගාටුයි, මට එය තේරුම් ගැනීමට නොහැකි විය.") }

/-! ## App component (the login/speech-toggle variant)

React state (`messages`, `userInput`, `isLoading`, `status`, `voices`,
`isSpeakingEnabled`, `ttsWarningShown`) becomes an explicit `ChatState`
passed through the handlers.  `Date.now().toString()` becomes an explicit
`now` argument (only message ids depend on it). -/

/-- One entry of `window.speechSynthesis.getVoices()`: the `lang` tag is all
the selection logic reads. -/
structure Voice where
  lang : String
deriving DecidableEq, Repr

/-- App component state. `speechSynthesisAvail` models the
`'speechSynthesis' in window` capability test. -/
structure ChatState where
  messages : List Message
  userInput : String
  isLoading : Bool
  status : String
  isSpeakingEnabled : Bool
  voices : List Voice
  ttsWarningShown : Bool
  speechSynthesisAvail : Bool
deriving DecidableEq, Repr

/-- JavaScript truthiness of an optional string field (`m.text`): present
and nonempty. -/
def textTruthy : Option String → Bool
  | some t => t ≠ ""
  | none => false

/-- Wire history built inside `handleSendMessage`: filter the store to
user/model messages with truthy `text`, then map to `{role, parts:
[{text}]}` (the `m.text!` assertion becomes `getD ""`, which the filter
guarantees is the actual text). -/
def wireHistory (messages : List Message) : List HistoryItem :=
  (messages.filter
      (fun m =>
        (m.role = MessageRole.user ∨ m.role = MessageRole.model) ∧ textTruthy m.text)).map
    (fun m => { role := m.role, parts := [{ text := m.text.getD "" }] })

/-- Modelled from the spec (for refinement comparison): the history as §3
words it, "filtering the Conversation Store to user/model messages that
carry text" — a `text` field that is present, with no nonemptiness
requirement. -/
def specWireHistory (messages : List Message) : List HistoryItem :=
  (messages.filter
      (fun m =>
        (m.role = MessageRole.user ∨ m.role = MessageRole.model) ∧ m.text.isSome)).map
    (fun m => { role := m.role, parts := [{ text := m.text.getD "" }] })

/-- Spec-worded history amended by the C3 counterexample: the carried text
must also be nonempty. -/
def specWireHistoryNonempty (messages : List Message) : List HistoryItem :=
  (messages.filter
      (fun m =>
        (m.role = MessageRole.user ∨ m.role = MessageRole.model) ∧
          m.text.isSome ∧ m.text ≠ some "")).map
    (fun m => { role := m.role, parts := [{ text := m.text.getD "" }] })

/-- The one-time system notice `speak` appends when no Sinhala voice is
installed. -/
def ttsWarningMessage : Message :=
  { id := "tts-warning"
    role := MessageRole.system
    text := some "කථන ප්‍රතිදානය සඳහා සිංහල භාෂා පැකේජයක් ඔබගේ උපාංගයේ ස්ථාපනය කර නොමැති බව පෙනේ. පිළිතුරු පෙළ ලෙස දිස්වනු ඇත." }

/-- Voice selection inside `speak`: first `find` on an exact `si-LK` lang,
else `find` on a `lang.startsWith('si')` match. -/
def selectVoice (voices : List Voice) : Option Voice :=
  match voices.find? (fun voice => voice.lang = "si-LK") with
  | some v => some v
  | none => voices.find? (fun voice => jsStartsWith voice.lang "si")

/-- Embedding of `speak`: no-op when speech output is disabled or the
synthesis API is absent; with a selected voice it speaks (no state change we
track); with none it appends the warning notice once per session, guarded
and then latched by `ttsWarningShown`. -/
def speak (text : String) (s : ChatState) : ChatState :=
  if ¬ s.isSpeakingEnabled ∨ ¬ s.speechSynthesisAvail then s
  else
    match selectVoice s.voices with
    | some _ => s
    | none =>
        if ¬ s.ttsWarningShown then
          { s with
            messages := s.messages ++ [ttsWarningMessage]
            ttsWarningShown := true }
        else s

/-- Fold of `speak` over a sequence of texts: a session's worth of speech
output calls. -/
def speakAll (texts : List String) (s : ChatState) : ChatState :=
  texts.foldl (fun st t => speak t st) s

/-- Count of voice-unavailable notices in a message list (they carry the
fixed id `tts-warning`). -/
def countWarnings (messages : List Message) : Nat :=
  (messages.filter (fun m => m.id = "tts-warning")).length

/-- Status line while a turn is in flight. -/
def statusThinking : String := "සිතමින්..."

/-- Idle status line. -/
def statusOnline : String := "සබැඳි ඇත"

/-- Fixed apology appended when a chat turn faults. -/
def apologyText : String := "මට කණගාටුයි, දෝෂයක් ඇතිවිය. කරුණාකර නැවත උත්සාහ කරන්න."

/-- Record of one `getAssistantResponse` invocation: the message and the
history it was given. -/
abbrev RemoteCall := String × List HistoryItem

/-- Embedding of `handleSendMessage` (App component): guard on blank input;
append the user message, clear the input, raise the loading flag; build the
wire history from the pre-turn store (the React closure captures `messages`
before the append); run the assistant turn, appending either its response or
the fixed apology (the try/catch boundary becomes the match on `Except`);
speak truthy response text; finally drop the loading flag and restore the
idle status.  The second component lists the remote calls made. -/
def handleSendMessage (env : GeminiEnv) (now : String) (text : String)
    (s : ChatState) : ChatState × List RemoteCall :=
  if jsTrim text = "" then (s, [])
  else
    let userMessage : Message := { id := now, role := MessageRole.user, text := some text }
    let s1 : ChatState :=
      { s with
        messages := s.messages ++ [userMessage]
        userInput := ""
        isLoading := true
        status := statusThinking }
    let history := wireHistory s.messages
    let s2 : ChatState :=
      match getAssistantResponse env text history with
      | Except.ok response =>
          let finalModelMessage : Message :=
            { id := now ++ "-model"
              role := MessageRole.model
              text := response.text
              imageUrl := response.imageUrl
              searchResults := response.searchResults }
          let s' := { s1 with messages := s1.messages ++ [finalModelMessage] }
          if textTruthy finalModelMessage.text then
            speak (finalModelMessage.text.getD "") s'
          else s'
      | Except.error _ =>
          let errorMessage : Message :=
            { id := now ++ "-model", role := MessageRole.model, text := some apologyText }
          let s' := { s1 with messages := s1.messages ++ [errorMessage] }
          if textTruthy errorMessage.text then
            speak (errorMessage.text.getD "") s'
          else s'
    ({ s2 with isLoading := false, status := statusOnline }, [(text, history)])

/-- Embedding of the mount-time restore effect: read the persisted
`currentUser` record (`none` for an absent key); a truthy (nonempty) record
is parsed, a parse failure clears the record, a parse success restores the
user.  `parse` abstracts `JSON.parse`; the result is the restored user and
the record left in storage. -/
def restoreCurrentUser (parse : String → Option User) (stored : Option String) :
    Option User × Option String :=
  match stored with
  | none => (none, none)
  | some j =>
      if j = "" then (none, some j)
      else
        match parse j with
        | some u => (some u, some j)
        | none => (none, none)

/-! ## Theorems -/

/-- C5: for every username and password input where either field is empty or
whitespace-only after trimming, both signup and login return
`ValidationError` and leave the credential store unchanged. -/
theorem auth_blank_fields_rejected (store : Store) (u p : String)
    (h : jsTrim u = "" ∨ jsTrim p = "") :
    handleSignup store u p = (Except.error AuthError.ValidationError, store) ∧
    handleLogin store u p = (Except.error AuthError.ValidationError, store) := by
  constructor
  · unfold handleSignup; rw [if_pos h]
  · unfold handleLogin; rw [if_pos h]

/-- Witness for C5 at a whitespace-only username over a nonempty store. -/
theorem auth_blank_fields_rejected_witness :
    (jsTrim "  " = "" ∨ jsTrim "pw" = "") ∧
    (handleSignup [("alice", "secret")] "  " "pw" =
        (Except.error AuthError.ValidationError, [("alice", "secret")]) ∧
      handleLogin [("alice", "secret")] "  " "pw" =
        (Except.error AuthError.ValidationError, [("alice", "secret")])) :=
  ⟨Or.inl (by decide),
    auth_blank_fields_rejected [("alice", "secret")] "  " "pw" (Or.inl (by decide))⟩

/-- C6 counterexample: with `"u"` already stored, a second signup for `"u"`
with a whitespace-only password returns `ValidationError`, not
`DuplicateUserError` — validation precedes the duplicate check. -/
theorem signup_duplicate_cex :
    List.lookup "u" [("u", "secret")] = some "secret" ∧
    handleSignup [("u", "secret")] "u" " " =
      (Except.error AuthError.ValidationError, [("u", "secret")]) ∧
    AuthError.ValidationError ≠ AuthError.DuplicateUserError := by
  refine ⟨rfl, ?_, by decide⟩
  unfold handleSignup
  rw [if_pos (Or.inr (by decide))]

/-- C6 amended: when both submitted fields are nonempty after trimming, a
second signup with an already-stored username returns `DuplicateUserError`
and the originally stored credential is unchanged. -/
theorem signup_duplicate_rejected (store : Store) (u pw p₀ : String)
    (hu : jsTrim u ≠ "") (hp : jsTrim pw ≠ "")
    (hs : List.lookup u store = some p₀) :
    handleSignup store u pw = (Except.error AuthError.DuplicateUserError, store) ∧
    List.lookup u (handleSignup store u pw).2 = some p₀ := by
  have hcond : ¬ (jsTrim u = "" ∨ jsTrim pw = "") := by
    rintro (h | h)
    · exact hu h
    · exact hp h
  unfold handleSignup
  rw [if_neg hcond, hs]
  exact ⟨rfl, hs⟩

/-- Witness for the amended C6 on a concrete one-entry store. -/
theorem signup_duplicate_rejected_witness :
    (jsTrim "alice" ≠ "") ∧ (jsTrim "pw2" ≠ "") ∧
    (List.lookup "alice" [("alice", "secret")] = some "secret") ∧
    (handleSignup [("alice", "secret")] "alice" "pw2" =
        (Except.error AuthError.DuplicateUserError, [("alice", "secret")]) ∧
      List.lookup "alice" (handleSignup [("alice", "secret")] "alice" "pw2").2 =
        some "secret") :=
  ⟨by decide, by decide, rfl,
    signup_duplicate_rejected [("alice", "secret")] "alice" "pw2" "secret"
      (by decide) (by decide) rfl⟩

/-- C7 counterexample: with `"u" ↦ "secret"` stored, login for `"u"` with
the non-matching whitespace-only password `" "` returns `ValidationError`,
not `InvalidCredentialsError`. -/
theorem login_wrong_password_cex :
    List.lookup "u" [("u", "secret")] = some "secret" ∧
    (" " : String) ≠ "secret" ∧
    handleLogin [("u", "secret")] "u" " " =
      (Except.error AuthError.ValidationError, [("u", "secret")]) ∧
    AuthError.ValidationError ≠ AuthError.InvalidCredentialsError := by
  refine ⟨rfl, by decide, ?_, by decide⟩
  unfold handleLogin
  rw [if_pos (Or.inr (by decide))]

/-- C7 amended: when both submitted fields are nonempty after trimming,
login with a stored username and a non-matching password returns
`InvalidCredentialsError`, and with the matching password returns the `User`
with that username. -/
theorem login_password_check (store : Store) (u pw p₀ : String)
    (hu : jsTrim u ≠ "") (hp : jsTrim pw ≠ "")
    (hs : List.lookup u store = some p₀) :
    (pw ≠ p₀ →
      handleLogin store u pw = (Except.error AuthError.InvalidCredentialsError, store)) ∧
    (pw = p₀ → handleLogin store u pw = (Except.ok { username := u }, store)) := by
  have hcond : ¬ (jsTrim u = "" ∨ jsTrim pw = "") := by
    rintro (h | h)
    · exact hu h
    · exact hp h
  unfold handleLogin
  rw [if_neg hcond, hs]
  constructor
  · intro hne
    have h' : ¬ p₀ = pw := fun h => hne h.symm
    simp [h']
  · intro he
    subst he
    simp

/-- Witness for the amended C7 at concrete matching and non-matching
passwords. -/
theorem login_password_check_witness :
    ((jsTrim "alice" ≠ "") ∧ (jsTrim "wrong" ≠ "") ∧
      (List.lookup "alice" [("alice", "secret")] = some "secret") ∧
      (("wrong" : String) ≠ "secret") ∧
      handleLogin [("alice", "secret")] "alice" "wrong" =
        (Except.error AuthError.InvalidCredentialsError, [("alice", "secret")])) ∧
    ((jsTrim "secret" ≠ "") ∧
      handleLogin [("alice", "secret")] "alice" "secret" =
        (Except.ok { username := "alice" }, [("alice", "secret")])) :=
  ⟨⟨by decide, by decide, rfl, by decide,
      (login_password_check [("alice", "secret")] "alice" "wrong" "secret"
          (by decide) (by decide) rfl).1 (by decide)⟩,
    ⟨by decide,
      (login_password_check [("alice", "secret")] "alice" "secret" "secret"
          (by decide) (by decide) rfl).2 rfl⟩⟩

/-- C1 counterexample: a turn whose first model response carries a
`getCurrentTime` tool invocation but whose second `sendMessage` rejects
returns a remote fault and never a response — `getAssistantResponse` has no
try/catch, so such a tool turn produces no final synthesized text at all. -/
theorem getAssistantResponse_tool_fault_cex :
    (GeminiEnv.mk (Except.ok { functionCall := some { name := "getCurrentTime" } })
          (Except.error "network down") (fun _ => Except.error "network down")
          (fun _ => Except.error "network down") "now").send1 =
      Except.ok { functionCall := some { name := "getCurrentTime" } } ∧
    getAssistantResponse
        { send1 := Except.ok { functionCall := some { name := "getCurrentTime" } }
          send2 := Except.error "network down"
          searchApi := fun _ => Except.error "network down"
          imageApi := fun _ => Except.error "network down"
          nowSi := "now" } "what time is it" [] =
      Except.error (GeminiFault.remote "network down") ∧
    ∀ r : AssistantResponse,
      getAssistantResponse
          { send1 := Except.ok { functionCall := some { name := "getCurrentTime" } }
            send2 := Except.error "network down"
            searchApi := fun _ => Except.error "network down"
            imageApi := fun _ => Except.error "network down"
            nowSi := "now" } "what time is it" [] ≠ Except.ok r := by
  have h : getAssistantResponse
      { send1 := Except.ok { functionCall := some { name := "getCurrentTime" } }
        send2 := Except.error "network down"
        searchApi := fun _ => Except.error "network down"
        imageApi := fun _ => Except.error "network down"
        nowSi := "now" } "what time is it" [] =
      Except.error (GeminiFault.remote "network down") := rfl
  exact ⟨rfl, h, fun r hr => by rw [h] at hr; exact Except.noConfusion hr⟩

/-- C1 amended: on every turn whose first model response carries an
invocation of one of the three declared tools and whose second round trip
(resubmitting the tool result) succeeds, `getAssistantResponse` returns
exactly one final synthesized text (the second response's text, `?? ''`),
with `imageUrl` attached only when the tool was `generateImage` and
`searchResults` attached only when it was `searchTheWeb`. -/
theorem getAssistantResponse_tool_turn (env : GeminiEnv) (message : String)
    (history : List HistoryItem) (resp : ModelResp) (fc : FunctionCall)
    (t₂ : Option String)
    (h1 : env.send1 = Except.ok resp)
    (h2 : resp.functionCall = some fc)
    (h3 : fc.name = "searchTheWeb" ∨ fc.name = "generateImage" ∨
      fc.name = "getCurrentTime")
    (h4 : env.send2 = Except.ok t₂) :
    ∃ r, getAssistantResponse env message history = Except.ok r ∧
      r.text = some (t₂.getD "") ∧
      (r.imageUrl ≠ none → fc.name = "generateImage") ∧
      (r.searchResults ≠ none → fc.name = "searchTheWeb") := by
  unfold getAssistantResponse finishToolTurn
  rw [h1]
  simp only [h2]
  rcases h3 with h | h | h <;> rw [h] <;> simp only [reduceIte] <;> rw [h4] <;>
    refine ⟨_, rfl, rfl, ?_, ?_⟩ <;> simp [FnPayload.imageUrl?, FnPayload.results?]

/-- Witness for C1: a concrete `generateImage` turn. -/
theorem getAssistantResponse_tool_turn_witness :
    ∃ r, getAssistantResponse
        { send1 := Except.ok
            { functionCall := some { name := "generateImage", prompt := some "a cat" } }
          send2 := Except.ok (some "done")
          searchApi := fun _ => Except.error "down"
          imageApi := fun _ => Except.ok ["QkJC"]
          nowSi := "now" } "draw a cat" [] = Except.ok r ∧
      r.text = some ((some "done").getD "") ∧
      (r.imageUrl ≠ none → ("generateImage" : String) = "generateImage") ∧
      (r.searchResults ≠ none → ("generateImage" : String) = "searchTheWeb") :=
  getAssistantResponse_tool_turn
    { send1 := Except.ok
        { functionCall := some { name := "generateImage", prompt := some "a cat" } }
      send2 := Except.ok (some "done")
      searchApi := fun _ => Except.error "down"
      imageApi := fun _ => Except.ok ["QkJC"]
      nowSi := "now" } "draw a cat" []
    { functionCall := some { name := "generateImage", prompt := some "a cat" } }
    { name := "generateImage", prompt := some "a cat" } (some "done") rfl rfl
    (Or.inr (Or.inl rfl)) rfl

/-- C2: a model response invoking any name other than the three declared
tools makes `getAssistantResponse` fault with `unknownTool` — never a normal
successful response, so the turn is distinguishable from every successful
one. -/
theorem getAssistantResponse_unknown_tool (env : GeminiEnv) (message : String)
    (history : List HistoryItem) (resp : ModelResp) (fc : FunctionCall)
    (h1 : env.send1 = Except.ok resp)
    (h2 : resp.functionCall = some fc)
    (h3 : fc.name ≠ "searchTheWeb") (h4 : fc.name ≠ "generateImage")
    (h5 : fc.name ≠ "getCurrentTime") :
    getAssistantResponse env message history =
      Except.error (GeminiFault.unknownTool fc.name) ∧
    ∀ r : AssistantResponse,
      getAssistantResponse env message history ≠ Except.ok r := by
  have hmain : getAssistantResponse env message history =
      Except.error (GeminiFault.unknownTool fc.name) := by
    unfold getAssistantResponse
    rw [h1]
    simp only [h2]
    rw [if_neg h3, if_neg h4, if_neg h5]
  exact ⟨hmain, fun r hr => by rw [hmain] at hr; exact Except.noConfusion hr⟩

/-- Witness for C2: a concrete response declaring an unimplemented tool. -/
theorem getAssistantResponse_unknown_tool_witness :
    getAssistantResponse
        { send1 := Except.ok { functionCall := some { name := "deleteFiles" } }
          send2 := Except.ok none
          searchApi := fun _ => Except.error "down"
          imageApi := fun _ => Except.error "down"
          nowSi := "now" } "hi" [] =
      Except.error (GeminiFault.unknownTool "deleteFiles") ∧
    ∀ r : AssistantResponse,
      getAssistantResponse
          { send1 := Except.ok { functionCall := some { name := "deleteFiles" } }
            send2 := Except.ok none
            searchApi := fun _ => Except.error "down"
            imageApi := fun _ => Except.error "down"
            nowSi := "now" } "hi" [] ≠ Except.ok r :=
  getAssistantResponse_unknown_tool
    { send1 := Except.ok { functionCall := some { name := "deleteFiles" } }
      send2 := Except.ok none
      searchApi := fun _ => Except.error "down"
      imageApi := fun _ => Except.error "down"
      nowSi := "now" } "hi" []
    { functionCall := some { name := "deleteFiles" } } { name := "deleteFiles" }
    rfl rfl (by decide) (by decide) (by decide)

/-- C3 counterexample: a user message whose `text` field is present but
empty is excluded from the wire history (the JS truthiness test `m.text`
rejects `""`), while the spec's "carries text" subsequence keeps it. -/
theorem wireHistory_empty_text_cex :
    wireHistory [{ id := "m1", role := MessageRole.user, text := some "" }] = [] ∧
    specWireHistory [{ id := "m1", role := MessageRole.user, text := some "" }] =
      [{ role := MessageRole.user, parts := [{ text := "" }] }] ∧
    wireHistory [{ id := "m1", role := MessageRole.user, text := some "" }] ≠
      specWireHistory [{ id := "m1", role := MessageRole.user, text := some "" }] := by
  decide

/-- C3 amended: the wire history is exactly the subsequence of user/model
messages whose `text` field is present and nonempty, mapped to `{role,
parts: [{text}]}` in insertion order. -/
theorem wireHistory_matches_spec (messages : List Message) :
    wireHistory messages = specWireHistoryNonempty messages := by
  unfold wireHistory specWireHistoryNonempty
  congr 1
  apply List.filter_congr
  intro m _
  simp only [decide_eq_decide]
  cases h : m.text <;> simp [textTruthy, h]

/-- C9 counterexample: an empty-string `currentUser` record is present and
unparseable, yet `restore` leaves it in storage instead of clearing it (the
`if (loggedInUserJson)` truthiness guard skips the parse entirely). -/
theorem restore_empty_record_cex :
    (fun _ : String => (none : Option User)) "" = none ∧
    restoreCurrentUser (fun _ => none) (some "") = (none, some "") ∧
    (some "" : Option String) ≠ none := by
  refine ⟨rfl, rfl, by decide⟩

/-- C9 amended: `restore` returns no user for an absent record; for a
present, nonempty but unparseable record it clears the record and returns no
user without crashing; for a present, nonempty, parseable record it returns
the stored user. -/
theorem restore_behavior (parse : String → Option User) (j : String) (u : User) :
    (restoreCurrentUser parse none = (none, none)) ∧
    (j ≠ "" → parse j = none → restoreCurrentUser parse (some j) = (none, none)) ∧
    (j ≠ "" → parse j = some u →
      restoreCurrentUser parse (some j) = (some u, some j)) := by
  refine ⟨rfl, ?_, ?_⟩ <;> intro hj hp <;>
    simp [restoreCurrentUser, hj, hp]

/-- Witness for the amended C9: concrete parse oracle, corrupted and intact
records. -/
theorem restore_behavior_witness :
    (("bad" : String) ≠ "") ∧
    ((fun s : String => if s = "good" then some (User.mk "alice") else none) "bad" =
      none) ∧
    restoreCurrentUser
        (fun s => if s = "good" then some (User.mk "alice") else none) (some "bad") =
      (none, none) ∧
    (("good" : String) ≠ "") ∧
    restoreCurrentUser
        (fun s => if s = "good" then some (User.mk "alice") else none) (some "good") =
      (some (User.mk "alice"), some "good") :=
  ⟨by decide, by decide,
    (restore_behavior (fun s => if s = "good" then some (User.mk "alice") else none)
        "bad" (User.mk "alice")).2.1 (by decide) (by decide),
    by decide,
    (restore_behavior (fun s => if s = "good" then some (User.mk "alice") else none)
        "good" (User.mk "alice")).2.2 (by decide) (by decide)⟩

/-- C10: submitting blank (empty or whitespace-only) input is a no-op — no
message appended, no remote call made, every state field unchanged. -/
theorem handleSendMessage_blank_noop (env : GeminiEnv) (now text : String)
    (s : ChatState) (h : jsTrim text = "") :
    handleSendMessage env now text s = (s, []) := by
  unfold handleSendMessage
  rw [if_pos h]

/-- Witness for C10 at whitespace-only input over a nonempty state. -/
theorem handleSendMessage_blank_noop_witness :
    jsTrim "   " = "" ∧
    handleSendMessage
        { send1 := Except.ok { text := some "hi" }
          send2 := Except.ok none
          searchApi := fun _ => Except.error "down"
          imageApi := fun _ => Except.error "down"
          nowSi := "now" } "t0" "   "
        { messages := [{ id := "init", role := MessageRole.model, text := some "hello" }]
          userInput := "   "
          isLoading := false
          status := "සබැඳි ඇත"
          isSpeakingEnabled := true
          voices := []
          ttsWarningShown := false
          speechSynthesisAvail := true } =
      ({ messages := [{ id := "init", role := MessageRole.model, text := some "hello" }]
         userInput := "   "
         isLoading := false
         status := "සබැඳි ඇත"
         isSpeakingEnabled := true
         voices := []
         ttsWarningShown := false
         speechSynthesisAvail := true }, []) :=
  ⟨by decide,
    handleSendMessage_blank_noop
      { send1 := Except.ok { text := some "hi" }
        send2 := Except.ok none
        searchApi := fun _ => Except.error "down"
        imageApi := fun _ => Except.error "down"
        nowSi := "now" } "t0" "   "
      { messages := [{ id := "init", role := MessageRole.model, text := some "hello" }]
        userInput := "   "
        isLoading := false
        status := "සබැඳි ඇත"
        isSpeakingEnabled := true
        voices := []
        ttsWarningShown := false
        speechSynthesisAvail := true } (by decide)⟩

/-- Helper: one `speak` call either leaves the message list alone or appends
exactly the one-time voice-unavailable notice. -/
theorem speak_messages (t : String) (st : ChatState) :
    ∃ rest, (speak t st).messages = st.messages ++ rest ∧
      (rest = [] ∨ rest = [ttsWarningMessage]) := by
  unfold speak
  split
  · exact ⟨[], (List.append_nil _).symm, Or.inl rfl⟩
  · split
    · exact ⟨[], (List.append_nil _).symm, Or.inl rfl⟩
    · split
      · exact ⟨[ttsWarningMessage], rfl, Or.inr rfl⟩
      · exact ⟨[], (List.append_nil _).symm, Or.inl rfl⟩

/-- C4: every assistant-turn fault (rejected remote call or unknown-tool
throw) is caught at the `handleSendMessage` boundary: the turn completes
normally, appending the fixed Sinhala apology to the conversation (followed
at most by the speech notice), with the loading flag dropped and the idle
status restored.  `handleSendMessage` is total — no fault propagates. -/
theorem handleSendMessage_fault_apology (env : GeminiEnv) (now text : String)
    (s : ChatState) (e : GeminiFault)
    (ht : jsTrim text ≠ "")
    (he : getAssistantResponse env text (wireHistory s.messages) = Except.error e) :
    ∃ rest,
      (handleSendMessage env now text s).1.messages =
        s.messages ++ [{ id := now, role := MessageRole.user, text := some text }] ++
          [{ id := now ++ "-model", role := MessageRole.model,
             text := some apologyText }] ++ rest ∧
      (rest = [] ∨ rest = [ttsWarningMessage]) ∧
      (handleSendMessage env now text s).1.isLoading = false ∧
      (handleSendMessage env now text s).1.status = statusOnline := by
  have hchar : handleSendMessage env now text s =
      ({ speak apologyText
            { s with
              messages :=
                s.messages ++
                    [{ id := now, role := MessageRole.user, text := some text }] ++
                  [{ id := now ++ "-model", role := MessageRole.model,
                     text := some apologyText }]
              userInput := ""
              isLoading := true
              status := statusThinking } with
          isLoading := false, status := statusOnline },
        [(text, wireHistory s.messages)]) := by
    unfold handleSendMessage
    rw [if_neg ht]
    simp only [he]
    have htt : textTruthy (some apologyText) = true := by decide
    simp [htt]
  obtain ⟨rest, hmsg, hrest⟩ :=
    speak_messages apologyText
      { s with
        messages :=
          s.messages ++ [{ id := now, role := MessageRole.user, text := some text }] ++
            [{ id := now ++ "-model", role := MessageRole.model,
               text := some apologyText }]
        userInput := ""
        isLoading := true
        status := statusThinking }
  refine ⟨rest, ?_, hrest, ?_, ?_⟩
  · rw [hchar]
    dsimp only
    rw [hmsg]
  · rw [hchar]
  · rw [hchar]

/-- Witness for C4: a concrete network fault on the first remote call. -/
theorem handleSendMessage_fault_apology_witness :
    (jsTrim "hello" ≠ "") ∧
    (getAssistantResponse
        { send1 := Except.error "network down"
          send2 := Except.error "network down"
          searchApi := fun _ => Except.error "network down"
          imageApi := fun _ => Except.error "network down"
          nowSi := "now" } "hello"
        (wireHistory ([] : List Message)) =
      Except.error (GeminiFault.remote "network down")) ∧
    (∃ rest,
      (handleSendMessage
          { send1 := Except.error "network down"
            send2 := Except.error "network down"
            searchApi := fun _ => Except.error "network down"
            imageApi := fun _ => Except.error "network down"
            nowSi := "now" } "t0" "hello"
          { messages := []
            userInput := "hello"
            isLoading := false
            status := "සබැඳි ඇත"
            isSpeakingEnabled := false
            voices := []
            ttsWarningShown := false
            speechSynthesisAvail := true }).1.messages =
        ([] : List Message) ++
            [{ id := "t0", role := MessageRole.user, text := some "hello" }] ++
          [{ id := "t0" ++ "-model", role := MessageRole.model,
             text := some apologyText }] ++ rest ∧
      (rest = [] ∨ rest = [ttsWarningMessage]) ∧
      (handleSendMessage
          { send1 := Except.error "network down"
            send2 := Except.error "network down"
            searchApi := fun _ => Except.error "network down"
            imageApi := fun _ => Except.error "network down"
            nowSi := "now" } "t0" "hello"
          { messages := []
            userInput := "hello"
            isLoading := false
            status := "සබැඳි ඇත"
            isSpeakingEnabled := false
            voices := []
            ttsWarningShown := false
            speechSynthesisAvail := true }).1.isLoading = false ∧
      (handleSendMessage
          { send1 := Except.error "network down"
            send2 := Except.error "network down"
            searchApi := fun _ => Except.error "network down"
            imageApi := fun _ => Except.error "network down"
            nowSi := "now" } "t0" "hello"
          { messages := []
            userInput := "hello"
            isLoading := false
            status := "සබැඳි ඇත"
            isSpeakingEnabled := false
            voices := []
            ttsWarningShown := false
            speechSynthesisAvail := true }).1.status = statusOnline) :=
  ⟨by decide, rfl,
    handleSendMessage_fault_apology
      { send1 := Except.error "network down"
        send2 := Except.error "network down"
        searchApi := fun _ => Except.error "network down"
        imageApi := fun _ => Except.error "network down"
        nowSi := "now" } "t0" "hello"
      { messages := []
        userInput := "hello"
        isLoading := false
        status := "සබැඳි ඇත"
        isSpeakingEnabled := false
        voices := []
        ttsWarningShown := false
        speechSynthesisAvail := true } (GeminiFault.remote "network down")
      (by decide) rfl⟩

/-- Helper: one `speak` call never increases the potential "warnings present
plus warnings still allowed" — it appends a notice only while latching
`ttsWarningShown`. -/
theorem speak_warning_potential (t : String) (st : ChatState) :
    countWarnings (speak t st).messages +
        (if (speak t st).ttsWarningShown then 0 else 1) ≤
      countWarnings st.messages + (if st.ttsWarningShown then 0 else 1) := by
  unfold speak
  split
  · exact le_rfl
  · split
    · exact le_rfl
    · split
      · rename_i h
        have hcount : countWarnings (st.messages ++ [ttsWarningMessage]) =
            countWarnings st.messages + 1 := by
          unfold countWarnings ttsWarningMessage
          simp
        simp only [Bool.not_eq_true] at h
        simp [hcount, h]
      · exact le_rfl

/-- Helper: the one-per-session bound extends by induction over any sequence
of `speak` calls. -/
theorem speakAll_warning_bound (texts : List String) (st : ChatState) :
    countWarnings (speakAll texts st).messages +
        (if (speakAll texts st).ttsWarningShown then 0 else 1) ≤
      countWarnings st.messages + (if st.ttsWarningShown then 0 else 1) := by
  induction texts generalizing st with
  | nil => exact le_rfl
  | cons t ts ih =>
      have hstep : speakAll (t :: ts) st = speakAll ts (speak t st) := rfl
      rw [hstep]
      exact le_trans (ih (speak t st)) (speak_warning_potential t st)

/-- C8: `speak` selects an exact `si-LK` voice when one exists, else a voice
whose language tag begins with `si` when one exists, else no voice (and, the
embedding being total, never throws); across any sequence of `speak` calls
in a session the voice-unavailable notice is emitted at most once. -/
theorem speak_voice_selection_single_notice (voices : List Voice)
    (st : ChatState) (texts : List String) :
    ((∃ v ∈ voices, v.lang = "si-LK") →
      ∃ v, selectVoice voices = some v ∧ v.lang = "si-LK") ∧
    ((∃ v ∈ voices, jsStartsWith v.lang "si" = true) →
      ∃ v, selectVoice voices = some v ∧ jsStartsWith v.lang "si" = true) ∧
    ((∀ v ∈ voices, jsStartsWith v.lang "si" = false) →
      selectVoice voices = none) ∧
    countWarnings (speakAll texts st).messages ≤
      countWarnings st.messages + (if st.ttsWarningShown then 0 else 1) := by
  refine ⟨?_, ?_, ?_, ?_⟩
  · rintro ⟨v, hv, hl⟩
    unfold selectVoice
    have hsome : (voices.find? (fun voice => voice.lang = "si-LK")).isSome :=
      List.find?_isSome.mpr ⟨v, hv, by simp [hl]⟩
    obtain ⟨w, hw⟩ := Option.isSome_iff_exists.mp hsome
    rw [hw]
    exact ⟨w, rfl, by simpa using List.find?_some hw⟩
  · rintro ⟨v, hv, hl⟩
    unfold selectVoice
    cases hfe : voices.find? (fun voice => voice.lang = "si-LK") with
    | some w =>
        refine ⟨w, rfl, ?_⟩
        have hw : w.lang = "si-LK" := by simpa using List.find?_some hfe
        rw [hw]
        decide
    | none =>
        have hsome : (voices.find? (fun voice => jsStartsWith voice.lang "si")).isSome :=
          List.find?_isSome.mpr ⟨v, hv, hl⟩
        obtain ⟨w, hw⟩ := Option.isSome_iff_exists.mp hsome
        rw [hw]
        exact ⟨w, rfl, by simpa using List.find?_some hw⟩
  · intro hall
    unfold selectVoice
    have h1 : voices.find? (fun voice => voice.lang = "si-LK") = none := by
      rw [List.find?_eq_none]
      intro v hv hcontra
      have hvl : v.lang = "si-LK" := by simpa using hcontra
      have hsw : jsStartsWith v.lang "si" = true := by rw [hvl]; decide
      rw [hall v hv] at hsw
      exact Bool.noConfusion hsw
    rw [h1, List.find?_eq_none]
    intro v hv hc
    rw [hall v hv] at hc
    exact Bool.noConfusion hc
  · calc countWarnings (speakAll texts st).messages ≤
        countWarnings (speakAll texts st).messages +
          (if (speakAll texts st).ttsWarningShown then 0 else 1) :=
          Nat.le_add_right _ _
      _ ≤ _ := speakAll_warning_bound texts st

/-- Witness for C8: concrete voice list, session state and call sequence. -/
theorem speak_voice_selection_single_notice_witness :
    ((∃ v ∈ [Voice.mk "en-US", Voice.mk "si-LK"], v.lang = "si-LK") →
      ∃ v, selectVoice [Voice.mk "en-US", Voice.mk "si-LK"] = some v ∧
        v.lang = "si-LK") ∧
    ((∃ v ∈ [Voice.mk "en-US", Voice.mk "si-LK"], jsStartsWith v.lang "si" = true) →
      ∃ v, selectVoice [Voice.mk "en-US", Voice.mk "si-LK"] = some v ∧
        jsStartsWith v.lang "si" = true) ∧
    ((∀ v ∈ [Voice.mk "en-US", Voice.mk "si-LK"], jsStartsWith v.lang "si" = false) →
      selectVoice [Voice.mk "en-US", Voice.mk "si-LK"] = none) ∧
    countWarnings
        (speakAll ["hi", "yo"]
          { messages := []
            userInput := ""
            isLoading := false
            status := "සබැඳි ඇත"
            isSpeakingEnabled := true
            voices := []
            ttsWarningShown := false
            speechSynthesisAvail := true }).messages ≤
      countWarnings
          ({ messages := []
             userInput := ""
             isLoading := false
             status := "සබැඳි ඇත"
             isSpeakingEnabled := true
             voices := []
             ttsWarningShown := false
             speechSynthesisAvail := true } : ChatState).messages +
        (if ({ messages := []
               userInput := ""
               isLoading := false
               status := "සබැඳි ඇත"
               isSpeakingEnabled := true
               voices := []
               ttsWarningShown := false
               speechSynthesisAvail := true } : ChatState).ttsWarningShown
          then 0 else 1) :=
  speak_voice_selection_single_notice [Voice.mk "en-US", Voice.mk "si-LK"]
    { messages := []
      userInput := ""
      isLoading := false
      status := "සබැඳි ඇත"
      isSpeakingEnabled := true
      voices := []
      ttsWarningShown := false
      speechSynthesisAvail := true } ["hi", "yo"]

end AiBot
